import Mathlib

/-!
Verification development for the flight-schedule import and update-alert
scripts.  The JavaScript sources are shallowly embedded: sheet cell values
become an inductive `JsVal`, `Date` objects become a timestamp plus a
timezone offset, machine floats become exact rationals, and each source
function is transcribed as a Lean definition keeping the source's names.
-/

/-- A JavaScript `Date`: milliseconds since the epoch plus the local
timezone offset in minutes (local wall time = UTC + `tzOffsetMin`). -/
structure JsDate where
  ms : ℤ
  tzOffsetMin : ℤ
  deriving DecidableEq, Repr

/-- `Date.prototype.getUTCHours`: the UTC hour-of-day of the timestamp. -/
def JsDate.getUTCHours (d : JsDate) : ℤ :=
  (Int.fdiv d.ms 3600000) % 24

/-- `Date.prototype.getUTCMinutes`. -/
def JsDate.getUTCMinutes (d : JsDate) : ℤ :=
  (Int.fdiv d.ms 60000) % 60

/-- `Date.prototype.getHours`: the hour-of-day in local time. -/
def JsDate.getHours (d : JsDate) : ℤ :=
  (Int.fdiv (d.ms + d.tzOffsetMin * 60000) 3600000) % 24

/-- `Date.prototype.getMinutes`: the minute in local time. -/
def JsDate.getMinutes (d : JsDate) : ℤ :=
  (Int.fdiv (d.ms + d.tzOffsetMin * 60000) 60000) % 60

/-- A sheet cell value as received by the status functions: empty
(`null`/`undefined`/blank), a number (spreadsheet fraction-of-day), a
`Date`, or a string. -/
inductive JsVal where
  | empty : JsVal
  | num : ℚ → JsVal
  | date : JsDate → JsVal
  | str : String → JsVal
  deriving DecidableEq, Repr

/-- JavaScript truthiness of a cell value (`!v` is its negation):
`null`/`undefined`, the number `0` and the empty string are falsy. -/
def JsVal.truthy : JsVal → Bool
  | .empty => false
  | .num q => if q = 0 then false else true
  | .date _ => true
  | .str s => if s = "" then false else true

/-- The `stdHours`/`currentHours` conversion ladder of
`FLIGHT_UPDATE_STATUS` (src/flight-update-alerts.js lines 295-305):
`typeof v === 'number'` gives `v * 24`, a `Date` gives
`getUTCHours() + getUTCMinutes() / 60`, anything else leaves the
initial value `0`. -/
def timeToHoursUTC : JsVal → ℚ
  | .num q => q * 24
  | .date d => (d.getUTCHours : ℚ) + (d.getUTCMinutes : ℚ) / 60
  | _ => 0

/-- The `stdHours` conversion ladder of `calculateFlightUpdateStatus`
(src/unnamed/part_000 lines 125-129), which reads the LOCAL clock of a
`Date` value: `getHours() + getMinutes() / 60`. -/
def timeToHoursLocal : JsVal → ℚ
  | .num q => q * 24
  | .date d => (d.getHours : ℚ) + (d.getMinutes : ℚ) / 60
  | _ => 0

/-- `Number.prototype.toFixed(1)`: nearest multiple of one tenth, ties
away from zero for the nonnegative arguments that reach it here. -/
def toFixed1 (q : ℚ) : String :=
  let n : ℤ := ⌊q * 10 + 1 / 2⌋
  toString (n / 10) ++ "." ++ toString (n % 10)

/-- `const daysDiff = Math.floor((fDate - tDate) / (1000*60*60*24))`. -/
def daysDiffOf (fDate tDate : JsDate) : ℤ :=
  Int.fdiv (fDate.ms - tDate.ms) 86400000

/-- The five-branch update-window ladder shared verbatim by both status
functions (src/flight-update-alerts.js lines 321-332, src/unnamed/part_000
lines 151-162). -/
def updateHourFor (stdHours : ℚ) : ℚ :=
  if stdHours ≥ 7.167 ∧ stdHours < 13.167 then 4.083
  else if stdHours ≥ 13.167 ∧ stdHours < 19.167 then 10.083
  else if stdHours ≥ 19.167 then 16.083
  else if stdHours < 1.167 then 16.083
  else 22.083

/-- `FLIGHT_UPDATE_STATUS` (src/flight-update-alerts.js lines 274-345).
`flightDate`/`todayDate` arrive from sheet cells as a `Date` or blank;
`stdTime`/`currentTime` may be numbers, `Date`s or other values.  No
operation in the body can throw on these inputs, so the `catch` branch
returning an `"ERROR: ..."` string is unreachable in the embedding. -/
def FLIGHT_UPDATE_STATUS (flightDate : Option JsDate) (stdTime : JsVal)
    (updatedIndicator : String) (todayDate : JsDate) (currentTime : JsVal) :
    String :=
  match flightDate with
  | none => ":)"
  | some fDate =>
    if stdTime.truthy = false then ":)"
    else if updatedIndicator = "Y" ∨ updatedIndicator = "y" then ":)"
    else
      let daysDiff : ℤ := daysDiffOf fDate todayDate
      let stdHours : ℚ := timeToHoursUTC stdTime
      let currentHours : ℚ := timeToHoursUTC currentTime
      let hoursUntil : ℚ := daysDiff * 24 + (stdHours - currentHours)
      if hoursUntil < 3 ∧ hoursUntil ≥ 0 then "ATNAUJINTI DABAR!!!!"
      else if hoursUntil > 24 ∨ daysDiff > 0 then "TOLI"
      else
        let updateHour := updateHourFor stdHours
        if currentHours ≥ updateHour then "ATNAUJINTI"
        else "ATNAUJINTI UZ " ++ toFixed1 (updateHour - currentHours) ++ " VAL"

/-- `calculateFlightUpdateStatus` (src/unnamed/part_000 lines 109-175).
Identical to `FLIGHT_UPDATE_STATUS` except that it takes no
`updatedIndicator` and converts a `Date`-typed `stdTime` with the LOCAL
`getHours`/`getMinutes` (line 128) while `currentTime` still uses UTC. -/
def calculateFlightUpdateStatus (flightDate : Option JsDate) (stdTime : JsVal)
    (todayDate : JsDate) (currentTime : JsVal) : String :=
  match flightDate with
  | none => ":)"
  | some fDate =>
    if stdTime.truthy = false then ":)"
    else
      let daysDiff : ℤ := daysDiffOf fDate todayDate
      let stdHours : ℚ := timeToHoursLocal stdTime
      let currentHours : ℚ := timeToHoursUTC currentTime
      let hoursUntil : ℚ := daysDiff * 24 + (stdHours - currentHours)
      if hoursUntil < 3 ∧ hoursUntil ≥ 0 then "ATNAUJINTI DABAR!!!!"
      else if hoursUntil > 24 ∨ daysDiff > 0 then "TOLI"
      else
        let updateHour := updateHourFor stdHours
        if currentHours ≥ updateHour then "ATNAUJINTI"
        else "ATNAUJINTI UZ " ++ toFixed1 (updateHour - currentHours) ++ " VAL"

/-- `hoursUntil` as computed by `FLIGHT_UPDATE_STATUS`. -/
def hoursUntilUTC (fDate tDate : JsDate) (stdTime currentTime : JsVal) : ℚ :=
  (daysDiffOf fDate tDate : ℚ) * 24 +
    (timeToHoursUTC stdTime - timeToHoursUTC currentTime)

example : FLIGHT_UPDATE_STATUS (some ⟨0, 0⟩) (.num (1/24)) "" ⟨0, 0⟩ (.num 0)
    = "ATNAUJINTI DABAR!!!!" := by
  norm_num [FLIGHT_UPDATE_STATUS, JsVal.truthy, daysDiffOf, timeToHoursUTC]
  decide

example : FLIGHT_UPDATE_STATUS (some ⟨0, 0⟩) (.num (1/3)) "" ⟨0, 0⟩ (.num (3/24))
    = "ATNAUJINTI UZ 1.1 VAL" := by
  norm_num [FLIGHT_UPDATE_STATUS, JsVal.truthy, daysDiffOf, timeToHoursUTC,
    updateHourFor, toFixed1]
  decide

example : FLIGHT_UPDATE_STATUS (some ⟨0, 0⟩) (.num (1/3)) "" ⟨0, 0⟩ (.num (5/24))
    = "ATNAUJINTI" := by
  norm_num [FLIGHT_UPDATE_STATUS, JsVal.truthy, daysDiffOf, timeToHoursUTC,
    updateHourFor]
  decide

/-- The status computation after its three early-return guards, as a
single conditional: used to reason about the branch structure of
`FLIGHT_UPDATE_STATUS` once the guards are discharged. -/
theorem FLIGHT_UPDATE_STATUS_body (fd td : JsDate) (std cur : JsVal)
    (ind : String) (hstd : std.truthy = true) (hY : ind ≠ "Y")
    (hy : ind ≠ "y") :
    FLIGHT_UPDATE_STATUS (some fd) std ind td cur =
      (if hoursUntilUTC fd td std cur < 3 ∧ hoursUntilUTC fd td std cur ≥ 0
       then "ATNAUJINTI DABAR!!!!"
       else if hoursUntilUTC fd td std cur > 24 ∨ daysDiffOf fd td > 0
       then "TOLI"
       else if timeToHoursUTC cur ≥ updateHourFor (timeToHoursUTC std)
       then "ATNAUJINTI"
       else "ATNAUJINTI UZ " ++
         toFixed1 (updateHourFor (timeToHoursUTC std) - timeToHoursUTC cur)
         ++ " VAL") := by
  simp only [FLIGHT_UPDATE_STATUS, hstd, hoursUntilUTC]
  rw [if_neg (by simp), if_neg (by simp [hY, hy])]

/-- The ActionPending output can never coincide with the UrgentNow
keyword, whatever the formatted remaining time is. -/
theorem pending_ne_urgent (t : String) :
    "ATNAUJINTI UZ " ++ t ++ " VAL" ≠ "ATNAUJINTI DABAR!!!!" := by
  intro h
  have hd : (("ATNAUJINTI UZ " ++ t) ++ " VAL").data.take 12 =
      ("ATNAUJINTI DABAR!!!!" : String).data.take 12 := by rw [← h]
  rw [String.data_append, String.data_append,
    List.take_append_eq_append_take, List.take_append_eq_append_take] at hd
  simp at hd

/-- C1: with flightDate and STD present and the updated flag not set, the
status is UrgentNow ("ATNAUJINTI DABAR!!!!") exactly when
`0 ≤ hoursUntil < 3`; at `hoursUntil = 3` it is not UrgentNow, and at
`hoursUntil = 24` (STD and now being times of day, so `daysDiff ≥ 1`) it
is TooFar ("TOLI"). -/
theorem c1_urgent_boundary (fd td : JsDate) (std cur : JsVal) (ind : String)
    (hstd : std.truthy = true) (hY : ind ≠ "Y") (hy : ind ≠ "y")
    (hs0 : 0 ≤ timeToHoursUTC std) (hs24 : timeToHoursUTC std < 24)
    (hc0 : 0 ≤ timeToHoursUTC cur) (hc24 : timeToHoursUTC cur < 24) :
    (FLIGHT_UPDATE_STATUS (some fd) std ind td cur = "ATNAUJINTI DABAR!!!!" ↔
      0 ≤ hoursUntilUTC fd td std cur ∧ hoursUntilUTC fd td std cur < 3) ∧
    (hoursUntilUTC fd td std cur = 3 →
      FLIGHT_UPDATE_STATUS (some fd) std ind td cur ≠ "ATNAUJINTI DABAR!!!!") ∧
    (hoursUntilUTC fd td std cur = 24 →
      FLIGHT_UPDATE_STATUS (some fd) std ind td cur = "TOLI") := by
  have hcast : hoursUntilUTC fd td std cur =
      (daysDiffOf fd td : ℚ) * 24 +
        (timeToHoursUTC std - timeToHoursUTC cur) := rfl
  rw [FLIGHT_UPDATE_STATUS_body fd td std cur ind hstd hY hy]
  by_cases h1 : hoursUntilUTC fd td std cur < 3 ∧ hoursUntilUTC fd td std cur ≥ 0
  · rw [if_pos h1]
    refine ⟨⟨fun _ => ⟨h1.2, h1.1⟩, fun _ => rfl⟩, ?_, ?_⟩
    · intro h3
      exfalso
      rw [h3] at h1
      exact absurd h1.1 (by norm_num)
    · intro h24
      exfalso
      rw [h24] at h1
      exact absurd h1.1 (by norm_num)
  · rw [if_neg h1]
    have hne : ¬ (0 ≤ hoursUntilUTC fd td std cur ∧
        hoursUntilUTC fd td std cur < 3) := fun h => h1 ⟨h.2, h.1⟩
    by_cases h2 : hoursUntilUTC fd td std cur > 24 ∨ daysDiffOf fd td > 0
    · rw [if_pos h2]
      exact ⟨⟨fun h => absurd h (by decide), fun h => absurd h hne⟩,
        fun _ => by decide, fun _ => rfl⟩
    · rw [if_neg h2]
      have h24 : hoursUntilUTC fd td std cur ≠ 24 := by
        intro hq
        push_neg at h2
        have hdq : (0 : ℚ) < (daysDiffOf fd td : ℚ) * 24 := by
          rw [hcast] at hq
          linarith
        have hdpos : (0 : ℚ) < (daysDiffOf fd td : ℚ) := by linarith
        exact absurd (show (0 : ℤ) < daysDiffOf fd td by exact_mod_cast hdpos)
          (not_lt.mpr h2.2)
      by_cases h3 : timeToHoursUTC cur ≥ updateHourFor (timeToHoursUTC std)
      · rw [if_pos h3]
        exact ⟨⟨fun h => absurd h (by decide), fun h => absurd h hne⟩,
          fun _ => by decide, fun hq => absurd hq h24⟩
      · rw [if_neg h3]
        exact ⟨⟨fun h => absurd h (pending_ne_urgent _), fun h => absurd h hne⟩,
          fun _ => pending_ne_urgent _, fun hq => absurd hq h24⟩

/-- Witness for `c1_urgent_boundary`: flightDate = today (the epoch), STD
one hour after a midnight "now", so `hoursUntil = 1` and the status is
UrgentNow. -/
theorem c1_urgent_boundary_witness :
    JsVal.truthy (.num (1/24)) = true ∧
    hoursUntilUTC ⟨0, 0⟩ ⟨0, 0⟩ (.num (1/24)) (.num 0) = 1 ∧
    FLIGHT_UPDATE_STATUS (some ⟨0, 0⟩) (.num (1/24)) "" ⟨0, 0⟩ (.num 0) =
      "ATNAUJINTI DABAR!!!!" := by
  have hd : daysDiffOf ⟨0, 0⟩ ⟨0, 0⟩ = 0 := by decide
  have hU : hoursUntilUTC ⟨0, 0⟩ ⟨0, 0⟩ (.num (1/24)) (.num 0) = 1 := by
    norm_num [hoursUntilUTC, hd, timeToHoursUTC]
  refine ⟨by norm_num [JsVal.truthy], hU, ?_⟩
  exact (c1_urgent_boundary ⟨0, 0⟩ ⟨0, 0⟩ (.num (1/24)) (.num 0) ""
    (by norm_num [JsVal.truthy]) (by decide) (by decide)
    (by norm_num [timeToHoursUTC]) (by norm_num [timeToHoursUTC])
    (by norm_num [timeToHoursUTC]) (by norm_num [timeToHoursUTC])).1.mpr
    (by rw [hU]; norm_num)

/-- C2: in the deadline-window branch (flight today, not urgent, not too
far) with STD in the 07:10-13:10 band, the update deadline is the source
constant 4.083 (labelled 04:05 in the source comment): ActionDue
("ATNAUJINTI") when now is at or past it, otherwise ActionPending with the
remaining hours formatted to one decimal. -/
theorem c2_deadline_window (fd td : JsDate) (std cur : JsVal) (ind : String)
    (hstd : std.truthy = true) (hY : ind ≠ "Y") (hy : ind ≠ "y")
    (hdays : daysDiffOf fd td = 0)
    (hnu : ¬ (hoursUntilUTC fd td std cur < 3 ∧
      hoursUntilUTC fd td std cur ≥ 0))
    (hnf : hoursUntilUTC fd td std cur ≤ 24)
    (hb1 : 7.167 ≤ timeToHoursUTC std) (hb2 : timeToHoursUTC std < 13.167) :
    (4.083 ≤ timeToHoursUTC cur →
      FLIGHT_UPDATE_STATUS (some fd) std ind td cur = "ATNAUJINTI") ∧
    (timeToHoursUTC cur < 4.083 →
      FLIGHT_UPDATE_STATUS (some fd) std ind td cur =
        "ATNAUJINTI UZ " ++ toFixed1 (4.083 - timeToHoursUTC cur) ++ " VAL") := by
  rw [FLIGHT_UPDATE_STATUS_body fd td std cur ind hstd hY hy]
  have hup : updateHourFor (timeToHoursUTC std) = 4.083 := by
    rw [updateHourFor, if_pos ⟨hb1, hb2⟩]
  rw [if_neg hnu, if_neg (by
    push_neg
    exact ⟨hnf, le_of_eq hdays⟩), hup]
  constructor
  · intro hc
    rw [if_pos hc]
  · intro hc
    rw [if_neg (not_le.mpr hc)]

/-- Witness for `c2_deadline_window`: flightDate = today, STD = 08:00
(numeric 1/3 of a day).  At now = 05:00 the status is ActionDue; at
now = 03:00 it is ActionPending with "1.1" hours remaining. -/
theorem c2_deadline_window_witness :
    FLIGHT_UPDATE_STATUS (some ⟨0, 0⟩) (.num (1/3)) "" ⟨0, 0⟩ (.num (5/24)) =
      "ATNAUJINTI" ∧
    FLIGHT_UPDATE_STATUS (some ⟨0, 0⟩) (.num (1/3)) "" ⟨0, 0⟩ (.num (3/24)) =
      "ATNAUJINTI UZ 1.1 VAL" := by
  have hd : daysDiffOf ⟨0, 0⟩ ⟨0, 0⟩ = 0 := by decide
  constructor
  · exact (c2_deadline_window ⟨0, 0⟩ ⟨0, 0⟩ (.num (1/3)) (.num (5/24)) ""
      (by norm_num [JsVal.truthy]) (by decide) (by decide) hd
      (by norm_num [hoursUntilUTC, hd, timeToHoursUTC])
      (by norm_num [hoursUntilUTC, hd, timeToHoursUTC])
      (by norm_num [timeToHoursUTC]) (by norm_num [timeToHoursUTC])).1
      (by norm_num [timeToHoursUTC])
  · have h := (c2_deadline_window ⟨0, 0⟩ ⟨0, 0⟩ (.num (1/3)) (.num (3/24)) ""
      (by norm_num [JsVal.truthy]) (by decide) (by decide) hd
      (by norm_num [hoursUntilUTC, hd, timeToHoursUTC])
      (by norm_num [hoursUntilUTC, hd, timeToHoursUTC])
      (by norm_num [timeToHoursUTC]) (by norm_num [timeToHoursUTC])).2
      (by norm_num [timeToHoursUTC])
    rw [h]
    have ht : toFixed1 (4.083 - timeToHoursUTC (.num (3/24))) = "1.1" := by
      norm_num [toFixed1, timeToHoursUTC]
      decide
    rw [ht]
    decide

/-- C10: a numeric STD equal to 0 (midnight in fraction-of-day form) is
falsy in JavaScript, so both status implementations take the
missing-input early return and answer the Satisfied status ":)" for every
flightDate, todayDate and currentTime. -/
theorem c10_zero_std_satisfied (fd : Option JsDate) (ind : String)
    (td : JsDate) (cur : JsVal) :
    FLIGHT_UPDATE_STATUS fd (.num 0) ind td cur = ":)" ∧
    calculateFlightUpdateStatus fd (.num 0) td cur = ":)" := by
  cases fd with
  | none => exact ⟨rfl, rfl⟩
  | some f =>
    have ht : JsVal.truthy (.num 0) = false := by norm_num [JsVal.truthy]
    constructor
    · simp only [FLIGHT_UPDATE_STATUS, ht]
      exact if_pos trivial
    · simp only [calculateFlightUpdateStatus, ht]
      exact if_pos trivial

/-- Counterexample to C7: an STD that is neither a number nor a date (a
non-empty string) does not yield an Error status.  For a next-day flight
evaluated at midnight the result is "TOLI" (TooFar), which C7 says can
never happen for such an input. -/
theorem c7_counterexample :
    FLIGHT_UPDATE_STATUS (some ⟨86400000, 0⟩) (.str "not a time") ""
      ⟨0, 0⟩ (.num 0) = "TOLI" := by
  have hd : daysDiffOf ⟨86400000, 0⟩ ⟨0, 0⟩ = 1 := by decide
  rw [FLIGHT_UPDATE_STATUS_body _ _ _ _ ""
    (by decide) (by decide) (by decide)]
  have hU : hoursUntilUTC ⟨86400000, 0⟩ ⟨0, 0⟩ (.str "not a time") (.num 0)
      = 24 := by
    norm_num [hoursUntilUTC, hd, timeToHoursUTC]
  rw [hU, if_neg (by norm_num), if_pos (by right; rw [hd]; norm_num)]

/-- C7 amended: on an STD that is neither a number nor a date value the
status computation does not produce an Error status; it silently treats
`stdHours` as 0 and behaves exactly as if the STD were a midnight-UTC
Date. -/
theorem c7_amended_silent_fallback (fd : JsDate) (s ind : String)
    (td : JsDate) (cur : JsVal) (hs : s ≠ "") :
    FLIGHT_UPDATE_STATUS (some fd) (.str s) ind td cur =
      FLIGHT_UPDATE_STATUS (some fd) (.date ⟨0, 0⟩) ind td cur := by
  have h1 : JsVal.truthy (.str s) = true := by simp [JsVal.truthy, hs]
  have h2 : JsVal.truthy (.date ⟨0, 0⟩) = true := rfl
  have h3 : timeToHoursUTC (.str s) = timeToHoursUTC (.date ⟨0, 0⟩) := by
    have hh : JsDate.getUTCHours (⟨0, 0⟩ : JsDate) = 0 := by decide
    have hm : JsDate.getUTCMinutes (⟨0, 0⟩ : JsDate) = 0 := by decide
    norm_num [timeToHoursUTC, hh, hm]
  simp only [FLIGHT_UPDATE_STATUS, h1, h2, h3]

/-- Witness for `c7_amended_silent_fallback` at the concrete
counterexample input. -/
theorem c7_amended_silent_fallback_witness :
    ("not a time" : String) ≠ "" ∧
    FLIGHT_UPDATE_STATUS (some ⟨86400000, 0⟩) (.str "not a time") ""
        ⟨0, 0⟩ (.num 0) =
      FLIGHT_UPDATE_STATUS (some ⟨86400000, 0⟩) (.date ⟨0, 0⟩) ""
        ⟨0, 0⟩ (.num 0) :=
  ⟨by decide, c7_amended_silent_fallback ⟨86400000, 0⟩ "not a time" ""
    ⟨0, 0⟩ (.num 0) (by decide)⟩

/-- Counterexample to C9: for a Date-typed STD of 02:00 UTC carrying a
UTC+1 local offset (local 03:00), with flight today and now 00:00, the
sheet formula returns UrgentNow while the script variant, reading local
hours, lands in the pending branch: the two implementations disagree. -/
theorem c9_counterexample :
    FLIGHT_UPDATE_STATUS (some ⟨0, 0⟩) (.date ⟨7200000, 60⟩) "" ⟨0, 0⟩
        (.num 0) = "ATNAUJINTI DABAR!!!!" ∧
    calculateFlightUpdateStatus (some ⟨0, 0⟩) (.date ⟨7200000, 60⟩) ⟨0, 0⟩
        (.num 0) = "ATNAUJINTI UZ 22.1 VAL" ∧
    FLIGHT_UPDATE_STATUS (some ⟨0, 0⟩) (.date ⟨7200000, 60⟩) "" ⟨0, 0⟩
        (.num 0) ≠
      calculateFlightUpdateStatus (some ⟨0, 0⟩) (.date ⟨7200000, 60⟩) ⟨0, 0⟩
        (.num 0) := by
  have hd : daysDiffOf ⟨0, 0⟩ ⟨0, 0⟩ = 0 := by decide
  have hH : JsDate.getUTCHours ⟨7200000, 60⟩ = 2 := by decide
  have hM : JsDate.getUTCMinutes ⟨7200000, 60⟩ = 0 := by decide
  have hLH : JsDate.getHours ⟨7200000, 60⟩ = 3 := by decide
  have hLM : JsDate.getMinutes ⟨7200000, 60⟩ = 0 := by decide
  have e1 : FLIGHT_UPDATE_STATUS (some ⟨0, 0⟩) (.date ⟨7200000, 60⟩) ""
      ⟨0, 0⟩ (.num 0) = "ATNAUJINTI DABAR!!!!" := by
    norm_num [FLIGHT_UPDATE_STATUS, JsVal.truthy, hd, timeToHoursUTC, hH, hM]
    decide
  have e2 : calculateFlightUpdateStatus (some ⟨0, 0⟩) (.date ⟨7200000, 60⟩)
      ⟨0, 0⟩ (.num 0) = "ATNAUJINTI UZ 22.1 VAL" := by
    norm_num [calculateFlightUpdateStatus, JsVal.truthy, hd, timeToHoursUTC,
      timeToHoursLocal, hLH, hLM, updateHourFor, toFixed1]
    decide
  refine ⟨e1, e2, ?_⟩
  rw [e1, e2]
  decide

/-- C9 amended: the two status implementations agree on every input whose
STD converts to the same fractional hours under the UTC and the local
reading - in particular every numeric STD, and every Date STD whose local
clock coincides with UTC; they can differ otherwise (see the
counterexample). -/
theorem c9_amended_agree (fd : Option JsDate) (std cur : JsVal)
    (ind : String) (td : JsDate) (hY : ind ≠ "Y") (hy : ind ≠ "y")
    (hstd : timeToHoursLocal std = timeToHoursUTC std) :
    FLIGHT_UPDATE_STATUS fd std ind td cur =
      calculateFlightUpdateStatus fd std td cur := by
  cases fd with
  | none => rfl
  | some f =>
    simp only [FLIGHT_UPDATE_STATUS, calculateFlightUpdateStatus, hstd]
    by_cases ht : std.truthy = false
    · rw [if_pos ht, if_pos ht]
    · rw [if_neg ht, if_neg ht, if_neg (by simp [hY, hy])]

/-- Witness for `c9_amended_agree`: a numeric STD (08:00) converts
identically in both implementations, which then agree. -/
theorem c9_amended_agree_witness :
    timeToHoursLocal (.num (1/3)) = timeToHoursUTC (.num (1/3)) ∧
    FLIGHT_UPDATE_STATUS (some ⟨0, 0⟩) (.num (1/3)) "" ⟨0, 0⟩
        (.num (5/24)) =
      calculateFlightUpdateStatus (some ⟨0, 0⟩) (.num (1/3)) ⟨0, 0⟩
        (.num (5/24)) :=
  ⟨rfl, c9_amended_agree (some ⟨0, 0⟩) (.num (1/3)) (.num (5/24)) "" ⟨0, 0⟩
    (by decide) (by decide) rfl⟩

/-- Helper for `String.prototype.includes`: does the needle occur at the
head of the haystack? -/
def startsWithL : List Char → List Char → Bool
  | [], _ => true
  | _ :: _, [] => false
  | a :: as, b :: bs => if a = b then startsWithL as bs else false

/-- Helper for `String.prototype.includes`: does the needle occur
anywhere in the haystack? -/
def hasSubList (needle : List Char) : List Char → Bool
  | [] => needle.isEmpty
  | c :: rest => startsWithL needle (c :: rest) || hasSubList needle rest

/-- `s.includes(pat)` on JavaScript strings. -/
def jsIncludes (s pat : String) : Bool :=
  hasSubList pat.data s.data

/-- `ALERT_CONFIG.urgentKeyword` (both alert files, line 14). -/
def ALERT_urgentKeyword : String := "ATNAUJINTI DABAR!!!!"

/-- `ALERT_CONFIG.maxAlertsPerCheck` (both alert files, line 17). -/
def ALERT_maxAlertsPerCheck : ℕ := 10

/-- One scanned sheet row as the alert check sees it: `row[0]` (LegDate),
`row[1]` (Code) and the computed status string. -/
structure FlightRow where
  date : String
  code : String
  status : String
  deriving DecidableEq, Repr

/-- The urgent-flight selection loop of `checkUrgentFlightUpdates`
(src/unnamed/part_000 lines 60-85): a row is pushed onto `urgentFlights`
when its status is truthy and includes the urgent keyword, and its date
and code cells are truthy. -/
def selectUrgentFlights (rows : List FlightRow) : List FlightRow :=
  rows.filter (fun r =>
    (if r.status = "" then false else true) &&
    jsIncludes r.status ALERT_urgentKeyword &&
    ((if r.date = "" then false else true) &&
     (if r.code = "" then false else true)))

/-- `sendUrgentUpdateAlert` (src/flight-update-alerts.js lines 109-146,
src/unnamed/part_000 lines 180-217): truncates the urgent list to
`maxAlertsPerCheck` and appends the "there may be more" note exactly when
the truncated list's length equals `maxAlertsPerCheck`.  Returns the
alerted flights and whether the note was included. -/
def sendUrgentUpdateAlert (flights : List FlightRow) :
    List FlightRow × Bool :=
  let flights :=
    if flights.length > ALERT_maxAlertsPerCheck then
      flights.take ALERT_maxAlertsPerCheck
    else flights
  (flights, flights.length == ALERT_maxAlertsPerCheck)

/-- The alert step end to end: select urgent rows, then truncate and
flag. -/
def alertStep (rows : List FlightRow) : List FlightRow × Bool :=
  sendUrgentUpdateAlert (selectUrgentFlights rows)

/-- A row whose status is exactly the urgent keyword. -/
def urgentRow : FlightRow := ⟨"1-Jan-25", "BA123", "ATNAUJINTI DABAR!!!!"⟩

/-- Counterexample to C8: with exactly `maxAlertsPerCheck` (= 10) urgent
flights found, no truncation occurs, yet the "more urgent flights exist"
note IS included - the flag is not equivalent to truncation having
happened. -/
theorem c8_counterexample :
    (alertStep (List.replicate 10 urgentRow)).2 = true ∧
    (selectUrgentFlights (List.replicate 10 urgentRow)).length = 10 ∧
    ¬ 10 < (selectUrgentFlights (List.replicate 10 urgentRow)).length := by
  decide

/-- C8 amended: among rows with date and code present, the alert step
selects exactly those whose (truthy) status includes the urgent keyword,
truncates to the first `maxAlertsPerCheck` in encounter order, and
includes the warning note iff AT LEAST `maxAlertsPerCheck` urgent flights
were found (so also when exactly that many were found with no
truncation). -/
theorem c8_amended_alert_step (rows : List FlightRow)
    (hvalid : ∀ r ∈ rows, r.date ≠ "" ∧ r.code ≠ "") :
    (alertStep rows).1 =
      (rows.filter (fun r => (if r.status = "" then false else true) &&
        jsIncludes r.status ALERT_urgentKeyword)).take ALERT_maxAlertsPerCheck
    ∧ ((alertStep rows).2 = true ↔ ALERT_maxAlertsPerCheck ≤
      (rows.filter (fun r => (if r.status = "" then false else true) &&
        jsIncludes r.status ALERT_urgentKeyword)).length) := by
  have hsel : selectUrgentFlights rows =
      rows.filter (fun r => (if r.status = "" then false else true) &&
        jsIncludes r.status ALERT_urgentKeyword) := by
    apply List.filter_congr
    intro r hr
    obtain ⟨hd, hc⟩ := hvalid r hr
    simp [hd, hc]
  set l := rows.filter (fun r => (if r.status = "" then false else true) &&
    jsIncludes r.status ALERT_urgentKeyword) with hl
  have : alertStep rows = sendUrgentUpdateAlert l := by
    rw [alertStep, hsel]
  rw [this, sendUrgentUpdateAlert]
  by_cases hlen : l.length > ALERT_maxAlertsPerCheck
  · rw [if_pos hlen]
    constructor
    · rfl
    · simp only [List.length_take]
      constructor
      · intro _
        exact le_of_lt hlen
      · intro _
        simp [Nat.min_eq_left (le_of_lt hlen)]
  · rw [if_neg hlen]
    push_neg at hlen
    constructor
    · exact (List.take_of_length_le hlen).symm
    · simp only [beq_iff_eq]
      omega

/-- Witness for `c8_amended_alert_step` on a single urgent row: it is
selected, not truncated, and the note flag is off. -/
theorem c8_amended_alert_step_witness :
    (∀ r ∈ [urgentRow], r.date ≠ "" ∧ r.code ≠ "") ∧
    ((alertStep [urgentRow]).1 =
      (([urgentRow] : List FlightRow).filter
        (fun r => (if r.status = "" then false else true) &&
          jsIncludes r.status ALERT_urgentKeyword)).take ALERT_maxAlertsPerCheck
    ∧ ((alertStep [urgentRow]).2 = true ↔ ALERT_maxAlertsPerCheck ≤
      (([urgentRow] : List FlightRow).filter
        (fun r => (if r.status = "" then false else true) &&
          jsIncludes r.status ALERT_urgentKeyword)).length)) :=
  ⟨by decide, c8_amended_alert_step [urgentRow] (by decide)⟩

/-- `String.prototype.trim`, structurally on the character list. -/
def jsTrim (s : String) : String :=
  String.mk (((s.data.dropWhile Char.isWhitespace).reverse.dropWhile
    Char.isWhitespace).reverse)

/-- `String.prototype.toLowerCase`, structurally on the character list. -/
def jsToLower (s : String) : String :=
  String.mk (s.data.map Char.toLower)

/-- Header normalization in `parseScheduleData` (src/unnamed/part_002
line 369): `toLowerCase()` then strip every character outside a-z0-9. -/
def normalizeHeader (s : String) : String :=
  String.mk ((jsToLower s).data.filter (fun c => c.isLower || c.isDigit))

/-- `CONFIG.headerAliases` (src/unnamed/part_002 lines 51-104), in object
insertion order: raw header spelling to canonical field name. -/
def headerAliases : List (String × String) :=
  [("LegDate", "LegDate"), ("Leg Date", "LegDate"), ("Date", "LegDate"),
   ("Flight Date", "LegDate"),
   ("VehicleReg", "VehicleReg"), ("Vehicle Reg", "VehicleReg"),
   ("Registration", "VehicleReg"), ("Reg", "VehicleReg"),
   ("Aircraft", "VehicleReg"), ("AC Reg", "VehicleReg"),
   ("Tail", "VehicleReg"), ("Tail Number", "VehicleReg"),
   ("Code", "Code"), ("Flight Code", "Code"), ("Flight", "Code"),
   ("Flight Number", "Code"), ("Flight No", "Code"),
   ("DepString", "DepString"), ("Dep String", "DepString"),
   ("Departure", "DepString"), ("Dep", "DepString"), ("From", "DepString"),
   ("Origin", "DepString"),
   ("ArrString", "ArrString"), ("Arr String", "ArrString"),
   ("Arrival", "ArrString"), ("Arr", "ArrString"), ("To", "ArrString"),
   ("Destination", "ArrString"),
   ("STDHHMM", "STDHHMM"), ("STD HHMM", "STDHHMM"), ("STD", "STDHHMM"),
   ("Dep Time", "STDHHMM"), ("Departure Time", "STDHHMM"),
   ("STAHHMM", "STAHHMM"), ("STA HHMM", "STAHHMM"), ("STA", "STAHHMM"),
   ("Arr Time", "STAHHMM"), ("Arrival Time", "STAHHMM")]

/-- Does a (trimmed) header resolve to the given canonical field?  This is
the inner alias scan of `parseScheduleData` (src/unnamed/part_002 lines
368-382). -/
def headerMatchesField (fieldName header : String) : Bool :=
  headerAliases.any (fun p =>
    p.2 == fieldName && normalizeHeader p.1 == normalizeHeader header)

/-- The resolved value of a canonical field for one data row: the cell at
the first header index whose normalized form equals a normalized alias of
the field, or the empty string when the field is unresolved
(`colIndices[fieldName] = -1`) or the row is short. -/
def fieldValue (headers row : List String) (fieldName : String) : String :=
  match headers.findIdx? (fun h => headerMatchesField fieldName h) with
  | some i => row.getD i ""
  | none => ""

/-- One canonical flight record as produced by `parseScheduleData`
(`CONFIG.columnMapping` keys, src/unnamed/part_002 lines 38-47). -/
structure FlightData where
  LegDate : String
  VehicleReg : String
  Code : String
  DepString : String
  ArrString : String
  STDHHMM : String
  STAHHMM : String
  deriving DecidableEq, Repr

/-- Build the `flightData` object for one row (src/unnamed/part_002 lines
406-410): each canonical field reads its resolved column, or ''. -/
def rowToFlightData (headers row : List String) : FlightData where
  LegDate := fieldValue headers row "LegDate"
  VehicleReg := fieldValue headers row "VehicleReg"
  Code := fieldValue headers row "Code"
  DepString := fieldValue headers row "DepString"
  ArrString := fieldValue headers row "ArrString"
  STDHHMM := fieldValue headers row "STDHHMM"
  STAHHMM := fieldValue headers row "STAHHMM"

/-- The trimmed header row (src/unnamed/part_002 line 356). -/
def headersOf (rawData : List (List String)) : List String :=
  (rawData.headD []).map (fun h => jsTrim h)

/-- `parseScheduleData` (src/unnamed/part_002 lines 353-426): resolve the
headers once, then keep a data row when it is non-null, non-empty, its
FIRST cell is truthy (`!row[0]` skips the row), and the resolved LegDate
or Code value is non-empty. -/
def parseScheduleData (rawData : List (List String)) : List FlightData :=
  if rawData.length < 2 then []
  else
    let headers := headersOf rawData
    (rawData.drop 1).filterMap (fun row =>
      if row.isEmpty || row.getD 0 "" == "" then none
      else
        let fd := rowToFlightData headers row
        if fd.LegDate != "" || fd.Code != "" then some fd else none)

/-- Counterexample to C6: headers resolve LegDate to the second column;
the data row has a non-empty LegDate (and Code), yet it is dropped
because its first cell is empty - the keep condition is not just
"LegDate or Code non-empty". -/
theorem c6_counterexample :
    parseScheduleData [["From", "Date", "Code"], ["", "1-Jan-25", "BA1"]]
      = [] ∧
    fieldValue (headersOf [["From", "Date", "Code"],
      ["", "1-Jan-25", "BA1"]]) ["", "1-Jan-25", "BA1"] "LegDate"
      = "1-Jan-25" := by
  constructor
  · rfl
  · decide

/-- A skip-or-keep loop (continue on `p`, push on `q`) as
filter-then-map. -/
theorem filterMap_skip_keep {a b : Type} (p q : a → Bool) (f : a → b)
    (l : List a) :
    (l.filterMap (fun x => if p x then none
      else if q x then some (f x) else none)) =
      (l.filter (fun x => !p x && q x)).map f := by
  induction l with
  | nil => rfl
  | cons x t ih =>
    simp only [List.filterMap_cons, List.filter_cons]
    cases hp : p x with
    | true => simp [hp, ih]
    | false =>
      cases hq : q x with
      | true => simp [hp, hq, ih]
      | false => simp [hp, hq, ih]

/-- C6 amended: a data row is kept iff it is non-empty, its FIRST cell is
non-empty, and at least one of the resolved LegDate or Code values is
non-empty; kept rows map to their canonical records in order. -/
theorem c6_amended_row_filter (rawData : List (List String)) :
    parseScheduleData rawData =
      ((rawData.drop 1).filter (fun row =>
        !(row.isEmpty || row.getD 0 "" == "") &&
        ((rowToFlightData (headersOf rawData) row).LegDate != "" ||
         (rowToFlightData (headersOf rawData) row).Code != ""))).map
        (fun row => rowToFlightData (headersOf rawData) row) := by
  rw [parseScheduleData]
  by_cases hlen : rawData.length < 2
  · rw [if_pos hlen]
    have hdrop : rawData.drop 1 = [] :=
      List.drop_eq_nil_of_le (by omega)
    rw [hdrop]
    rfl
  · rw [if_neg hlen]
    exact filterMap_skip_keep
      (fun row => row.isEmpty || row.getD 0 "" == "")
      (fun row => (rowToFlightData (headersOf rawData) row).LegDate != "" ||
        (rowToFlightData (headersOf rawData) row).Code != "")
      (fun row => rowToFlightData (headersOf rawData) row)
      (rawData.drop 1)

/-- The sheet row A-G written for one record by `importScheduleData`, per
`CONFIG.columnMapping` (src/unnamed/part_002 lines 38-47): A=LegDate,
B=VehicleReg, C=Code, D=DepString, E=ArrString, F=STDHHMM, G=STAHHMM. -/
def toSheetRow (f : FlightData) : List String :=
  [f.LegDate, f.VehicleReg, f.Code, f.DepString, f.ArrString, f.STDHHMM,
   f.STAHHMM]

/-- The value in sheet column 2 (column B, 0-based index 1) of a row. -/
def colB (row : List String) : String :=
  row.getD 1 ""

/-- Modelled from the spec: `sortRange.sort({column: 2, ascending: true})`
(src/unnamed/part_002 line 703) calls the Google Sheets `Range.sort`
builtin, whose code is not in src.  Spec §4.4 describes the sort as
stable, ascending, lexicographic on the raw string value; it is modelled
as a stable insertion step on the column-2 string of each row. -/
def insertRowByB (r : List String) :
    List (List String) → List (List String)
  | [] => [r]
  | x :: xs =>
    if colB r ≤ colB x then r :: x :: xs else x :: insertRowByB r xs

/-- Modelled from the spec: `sortDataByColumnB` (src/unnamed/part_002
lines 690-714) delegates the actual ordering to the platform; the spec's
stable ascending sort on column 2 is realised by insertion. -/
def sortDataByColumnB : List (List String) → List (List String)
  | [] => []
  | x :: xs => insertRowByB x (sortDataByColumnB xs)

/-- Inserting a row yields a permutation of consing it. -/
theorem perm_insertRowByB (r : List String) (l : List (List String)) :
    (insertRowByB r l).Perm (r :: l) := by
  induction l with
  | nil => exact List.Perm.refl _
  | cons x xs ih =>
    rw [insertRowByB]
    by_cases hle : colB r ≤ colB x
    · rw [if_pos hle]
    · rw [if_neg hle]
      exact (ih.cons x).trans (List.Perm.swap r x xs)

/-- Inserting into a column-B-sorted list keeps it sorted. -/
theorem pairwise_insertRowByB (r : List String) (l : List (List String))
    (h : l.Pairwise (fun a b => colB a ≤ colB b)) :
    (insertRowByB r l).Pairwise (fun a b => colB a ≤ colB b) := by
  induction l with
  | nil => simp [insertRowByB]
  | cons x xs ih =>
    rw [insertRowByB]
    obtain ⟨hx, hxs⟩ := List.pairwise_cons.mp h
    by_cases hle : colB r ≤ colB x
    · rw [if_pos hle]
      refine List.pairwise_cons.mpr ⟨?_, h⟩
      intro b hb
      rcases List.mem_cons.mp hb with hbx | hbxs
      · rw [hbx]
        exact hle
      · exact le_trans hle (hx b hbxs)
    · rw [if_neg hle]
      refine List.pairwise_cons.mpr ⟨?_, ih hxs⟩
      intro b hb
      rcases List.mem_cons.mp ((perm_insertRowByB r xs).mem_iff.mp hb) with
        hbr | hbxs
      · rw [hbr]
        exact le_of_lt (not_le.mp hle)
      · exact hx b hbxs

/-- Filtering by an exact column-B value commutes with insertion: the
inserted row lands in front of the equal-key block, after all smaller
keys. -/
theorem filter_insertRowByB (r : List String) (l : List (List String))
    (v : String) :
    (insertRowByB r l).filter (fun x => colB x == v) =
      if colB r == v then r :: l.filter (fun x => colB x == v)
      else l.filter (fun x => colB x == v) := by
  induction l with
  | nil =>
    rw [insertRowByB]
    cases hrv : (colB r == v) with
    | true => simp [List.filter, hrv]
    | false => simp [List.filter, hrv]
  | cons x xs ih =>
    rw [insertRowByB]
    by_cases hle : colB r ≤ colB x
    · rw [if_pos hle, List.filter_cons]
    · rw [if_neg hle, List.filter_cons, ih]
      cases hrv : (colB r == v) with
      | true =>
        have hxv : (colB x == v) = false := by
          rw [beq_eq_false_iff_ne]
          intro hxe
          exact hle (le_of_eq ((beq_iff_eq.mp hrv).trans hxe.symm))
        simp [hrv, hxv]
      | false => simp [hrv, List.filter_cons]

/-- First record of the C5 counterexample: flight code sorts first,
registration sorts last. -/
def c5rec1 : FlightData :=
  ⟨"1-Jan-25", "ZZZ", "AAA111", "AAA", "BBB", "10:00", "11:00"⟩

/-- Second record of the C5 counterexample: flight code sorts last,
registration sorts first. -/
def c5rec2 : FlightData :=
  ⟨"1-Jan-25", "AAA", "BBB222", "CCC", "DDD", "12:00", "13:00"⟩

/-- Counterexample to C5: the sorter orders by sheet column B, which
`CONFIG.columnMapping` maps to VehicleReg, not Code.  Two records whose
Code order and VehicleReg order disagree come out in VehicleReg order,
so the output is NOT ordered by the Code field ascending. -/
theorem c5_counterexample :
    sortDataByColumnB [toSheetRow c5rec1, toSheetRow c5rec2] =
      [toSheetRow c5rec2, toSheetRow c5rec1] ∧
    c5rec1.Code < c5rec2.Code ∧
    colB (toSheetRow c5rec1) = c5rec1.VehicleReg := by
  refine ⟨?_, by rw [String.lt_iff_toList_lt]; decide, rfl⟩
  rw [sortDataByColumnB, sortDataByColumnB, sortDataByColumnB,
    insertRowByB, insertRowByB]
  rw [if_neg (by
    show ¬ ("ZZZ" : String) ≤ "AAA"
    rw [String.le_iff_toList_le]
    decide)]
  rw [insertRowByB]

/-- C5 amended: the sorter's output is the same multiset of rows, ordered
ascending by the COLUMN-B value - which `CONFIG.columnMapping` makes the
VehicleReg field, not Code - and rows with equal column-B value keep
their original relative order (equal-key subsequences are unchanged). -/
theorem c5_amended_sort (recs : List FlightData) :
    (sortDataByColumnB (recs.map toSheetRow)).Perm (recs.map toSheetRow) ∧
    (sortDataByColumnB (recs.map toSheetRow)).Pairwise
      (fun a b => colB a ≤ colB b) ∧
    (∀ v, (sortDataByColumnB (recs.map toSheetRow)).filter
        (fun r => colB r == v) =
      (recs.map toSheetRow).filter (fun r => colB r == v)) ∧
    (∀ f : FlightData, colB (toSheetRow f) = f.VehicleReg) := by
  have hperm : ∀ l : List (List String), (sortDataByColumnB l).Perm l := by
    intro l
    induction l with
    | nil => exact List.Perm.refl _
    | cons x xs ih =>
      rw [sortDataByColumnB]
      exact (perm_insertRowByB x (sortDataByColumnB xs)).trans (ih.cons x)
  have hsorted : ∀ l : List (List String),
      (sortDataByColumnB l).Pairwise (fun a b => colB a ≤ colB b) := by
    intro l
    induction l with
    | nil => simp [sortDataByColumnB]
    | cons x xs ih =>
      rw [sortDataByColumnB]
      exact pairwise_insertRowByB x (sortDataByColumnB xs) ih
  have hstable : ∀ (l : List (List String)) (v : String),
      (sortDataByColumnB l).filter (fun r => colB r == v) =
        l.filter (fun r => colB r == v) := by
    intro l v
    induction l with
    | nil => rfl
    | cons x xs ih =>
      rw [sortDataByColumnB, filter_insertRowByB, ih, List.filter_cons]
  exact ⟨hperm _, hsorted _, fun v => hstable _ v, fun f => rfl⟩

/-- `createRowKey` (src/unnamed/part_002 lines 863-872): the trimmed
cells of columns A-G (indices 0-6) joined with "|"; cells past index 6
contribute empty segments. -/
def createRowKey (row : List String) : String :=
  String.intercalate "|" (row.enum.map (fun p =>
    if p.1 ≤ 6 then jsTrim p.2 else ""))

/-- The diff key field read by `detectAndHighlightChanges` (lines
786/796): `row[1] ? row[1].toString().trim() : ''` - column B, which
`CONFIG.columnMapping` makes VehicleReg. -/
def jsCode (row : List String) : String :=
  if row.getD 1 "" = "" then "" else jsTrim (row.getD 1 "")

/-- One `flights[rowKey] = {...}` assignment on a JavaScript object in
insertion order: skip when the column-B field is blank, overwrite in
place when the key exists, append otherwise.  The stored payload is
reduced to the pair (rowKey, code) - the only fields the classification
reads. -/
def insertFlight (m : List (String × String)) (row : List String) :
    List (String × String) :=
  let code := jsCode row
  if code = "" then m
  else
    let k := createRowKey row
    if m.any (fun p => p.1 == k) then
      m.map (fun p => if p.1 == k then (k, code) else p)
    else m ++ [(k, code)]

/-- The `oldFlights`/`newFlights` lookup-map building loops of
`detectAndHighlightChanges` (src/unnamed/part_002 lines 784-801). -/
def buildFlightMap (rows : List (List String)) : List (String × String) :=
  rows.foldl insertFlight []

/-- Classification of one new-side row. -/
inductive DiffClass where
  | unchanged : DiffClass
  | modified : DiffClass
  | newFlight : DiffClass
  | skipped : DiffClass
  deriving DecidableEq, Repr

/-- The per-entry decision of `detectAndHighlightChanges` (src/unnamed/
part_002 lines 794-826) applied to one new-side row: rows with a blank
column-B field never enter the map (skipped); otherwise exact RowKey
match in the old map means unchanged, else a shared code means modified,
else new. -/
def classifyRow (oldM : List (String × String)) (row : List String) :
    DiffClass :=
  if jsCode row = "" then .skipped
  else if oldM.any (fun p => p.1 == createRowKey row) then .unchanged
  else if oldM.any (fun p => p.2 == jsCode row) then .modified
  else .newFlight

/-- The `newCount`/`changedCount`/`removedCount` tallies of
`detectAndHighlightChanges` (src/unnamed/part_002 lines 803-840),
computed over the distinct keys of the two lookup maps. -/
def detectChanges (oldData newData : List (List String)) : ℕ × ℕ × ℕ :=
  let oldFlights := buildFlightMap oldData
  let newFlights := buildFlightMap newData
  let newCount := (newFlights.filter (fun p =>
    !(oldFlights.any (fun q => q.1 == p.1)) &&
    !(oldFlights.any (fun q => q.2 == p.2)))).length
  let changedCount := (newFlights.filter (fun p =>
    !(oldFlights.any (fun q => q.1 == p.1)) &&
    (oldFlights.any (fun q => q.2 == p.2)))).length
  let removedCount := (oldFlights.filter (fun p =>
    !(newFlights.any (fun q => q.1 == p.1)) &&
    !(newFlights.any (fun q => q.2 == p.2)))).length
  (newCount, changedCount, removedCount)

/-- The new-side map entries the source leaves unhighlighted (exact
RowKey match in the old map); the source keeps no such counter, so this
is the count of entries classified unchanged. -/
def unchangedCount (oldData newData : List (List String)) : ℕ :=
  ((buildFlightMap newData).filter (fun p =>
    (buildFlightMap oldData).any (fun q => q.1 == p.1))).length

/-- A Boolean predicate splits a list's length into the filtered part and
its complement. -/
theorem length_filter_partition {a : Type} (f : a → Bool) (l : List a) :
    (l.filter f).length + (l.filter (fun x => !f x)).length = l.length := by
  induction l with
  | nil => rfl
  | cons x t ih =>
    rw [List.filter_cons, List.filter_cons]
    cases hx : f x with
    | true => simp [hx, ← ih]; omega
    | false => simp [hx, ← ih]; omega

/-- Filtering by a conjunction is iterated filtering. -/
theorem filter_and_split {a : Type} (f g : a → Bool) (l : List a) :
    l.filter (fun x => f x && g x) = (l.filter f).filter g := by
  induction l with
  | nil => rfl
  | cons x t ih =>
    rw [List.filter_cons, List.filter_cons]
    cases hf : f x with
    | true =>
      cases hg : g x with
      | true => simp [hf, hg, List.filter_cons, ih]
      | false => simp [hf, hg, List.filter_cons, ih]
    | false => simp [hf, ih]

/-- One object assignment grows the map by at most one entry. -/
theorem insertFlight_length (m : List (String × String))
    (row : List String) :
    (insertFlight m row).length ≤ m.length + 1 := by
  rw [insertFlight]
  by_cases hc : jsCode row = ""
  · rw [if_pos hc]
    omega
  · rw [if_neg hc]
    by_cases hk : (m.any (fun p => p.1 == createRowKey row)) = true
    · rw [if_pos hk, List.length_map]
      omega
    · rw [if_neg hk, List.length_append]
      simp

/-- The lookup map has at most one entry per input row. -/
theorem buildFlightMap_length_le : ∀ (rows : List (List String))
    (m : List (String × String)),
    (rows.foldl insertFlight m).length ≤ m.length + rows.length := by
  intro rows
  induction rows with
  | nil => intro m; simp
  | cons r t ih =>
    intro m
    rw [List.foldl_cons]
    have h1 := ih (insertFlight m r)
    have h2 := insertFlight_length m r
    simp only [List.length_cons]
    omega

/-- Counterexample to C4: a newSnapshot consisting of the same row twice
collapses to one lookup-map entry, so New + Modified + Unchanged = 1
while size(newSnapshot) = 2 - the diff does not classify every row
exactly once. -/
theorem c4_counterexample :
    ¬ ((detectChanges [["1-Jan-25", "REG1", "BA123", "AAA", "BBB", "10:00",
        "12:00"]] [["1-Jan-25", "REG2", "BA123", "AAA", "BBB", "11:00",
        "13:00"], ["1-Jan-25", "REG2", "BA123", "AAA", "BBB", "11:00",
        "13:00"]]).1 +
      (detectChanges [["1-Jan-25", "REG1", "BA123", "AAA", "BBB", "10:00",
        "12:00"]] [["1-Jan-25", "REG2", "BA123", "AAA", "BBB", "11:00",
        "13:00"], ["1-Jan-25", "REG2", "BA123", "AAA", "BBB", "11:00",
        "13:00"]]).2.1 +
      unchangedCount [["1-Jan-25", "REG1", "BA123", "AAA", "BBB", "10:00",
        "12:00"]] [["1-Jan-25", "REG2", "BA123", "AAA", "BBB", "11:00",
        "13:00"], ["1-Jan-25", "REG2", "BA123", "AAA", "BBB", "11:00",
        "13:00"]] =
      ([["1-Jan-25", "REG2", "BA123", "AAA", "BBB", "11:00", "13:00"],
        ["1-Jan-25", "REG2", "BA123", "AAA", "BBB", "11:00", "13:00"]] :
        List (List String)).length) := by
  decide

/-- C4 amended: the diff classifies every DISTINCT RowKey of the rows
with a non-blank column-B field exactly once:
New + Modified + Unchanged equals the size of the new-side lookup map,
which is at most - and for duplicate rows or blank column-B rows strictly
less than - size(newSnapshot). -/
theorem c4_amended_counts (oldData newData : List (List String)) :
    (detectChanges oldData newData).1 + (detectChanges oldData newData).2.1
      + unchangedCount oldData newData
      = (buildFlightMap newData).length ∧
    (buildFlightMap newData).length ≤ newData.length := by
  constructor
  · show ((buildFlightMap newData).filter _).length +
      ((buildFlightMap newData).filter _).length +
      ((buildFlightMap newData).filter _).length = _
    set A := buildFlightMap newData with hA
    set aP : String × String → Bool := fun p =>
      (buildFlightMap oldData).any (fun q => q.1 == p.1) with haP
    set bP : String × String → Bool := fun p =>
      (buildFlightMap oldData).any (fun q => q.2 == p.2) with hbP
    have h1 : (A.filter aP).length + (A.filter (fun p => !aP p)).length
        = A.length := length_filter_partition aP A
    have h2 : ((A.filter (fun p => !aP p)).filter bP).length +
        ((A.filter (fun p => !aP p)).filter (fun p => !bP p)).length =
        (A.filter (fun p => !aP p)).length :=
      length_filter_partition bP (A.filter (fun p => !aP p))
    have e1 : A.filter (fun p => !aP p && bP p) =
        (A.filter (fun p => !aP p)).filter bP :=
      filter_and_split (fun p => !aP p) bP A
    have e2 : A.filter (fun p => !aP p && !bP p) =
        (A.filter (fun p => !aP p)).filter (fun p => !bP p) :=
      filter_and_split (fun p => !aP p) (fun p => !bP p) A
    rw [e1, e2]
    omega
  · have h := buildFlightMap_length_le newData []
    simpa using h

/-- Every entry of the map after one assignment was there before or comes
from the inserted row. -/
theorem mem_insertFlight {m : List (String × String)} {row : List String}
    {p : String × String} (h : p ∈ insertFlight m row) :
    p ∈ m ∨ (p = (createRowKey row, jsCode row) ∧ jsCode row ≠ "") := by
  rw [insertFlight] at h
  by_cases hc : jsCode row = ""
  · rw [if_pos hc] at h
    exact .inl h
  · rw [if_neg hc] at h
    by_cases hk : (m.any (fun p => p.1 == createRowKey row)) = true
    · rw [if_pos hk] at h
      rcases List.mem_map.mp h with ⟨q, hq, hpq⟩
      by_cases hqk : (q.1 == createRowKey row) = true
      · rw [if_pos hqk] at hpq
        exact .inr ⟨hpq.symm, hc⟩
      · rw [if_neg hqk] at hpq
        exact .inl (hpq ▸ hq)
    · rw [if_neg hk] at h
      rcases List.mem_append.mp h with h1 | h2
      · exact .inl h1
      · exact .inr ⟨List.mem_singleton.mp h2, hc⟩

/-- Every entry of the lookup map comes from some input row with a
non-blank column-B field, key and code included. -/
theorem mem_buildFlightMap_aux : ∀ (rows : List (List String))
    (m : List (String × String)) (p : String × String),
    p ∈ rows.foldl insertFlight m →
    p ∈ m ∨ ∃ r ∈ rows, p = (createRowKey r, jsCode r) ∧ jsCode r ≠ "" := by
  intro rows
  induction rows with
  | nil => exact fun m p h => .inl h
  | cons r t ih =>
    intro m p h
    rw [List.foldl_cons] at h
    rcases ih (insertFlight m r) p h with h1 | ⟨r2, hr2, hp⟩
    · rcases mem_insertFlight h1 with h2 | h3
      · exact .inl h2
      · exact .inr ⟨r, List.mem_cons_self r t, h3⟩
    · exact .inr ⟨r2, List.mem_cons_of_mem r hr2, hp⟩

/-- After assigning a row, its own (key, code) pair is in the map. -/
theorem insertFlight_self_mem {m : List (String × String)}
    {row : List String} (h : jsCode row ≠ "") :
    (createRowKey row, jsCode row) ∈ insertFlight m row := by
  rw [insertFlight]
  rw [if_neg h]
  by_cases hk : (m.any (fun p => p.1 == createRowKey row)) = true
  · rw [if_pos hk]
    rcases List.any_eq_true.mp hk with ⟨q, hq, hqk⟩
    exact List.mem_map.mpr ⟨q, hq, by rw [if_pos hqk]⟩
  · rw [if_neg hk]
    exact List.mem_append.mpr (.inr (List.mem_singleton.mpr rfl))

/-- An existing (key, code) entry survives one assignment provided any
row writing the same key writes the same code. -/
theorem insertFlight_preserves {m : List (String × String)}
    {row : List String} {k c : String} (hm : (k, c) ∈ m)
    (hcons : jsCode row ≠ "" → createRowKey row = k → jsCode row = c) :
    (k, c) ∈ insertFlight m row := by
  rw [insertFlight]
  by_cases hc : jsCode row = ""
  · rw [if_pos hc]
    exact hm
  · rw [if_neg hc]
    by_cases hk : (m.any (fun p => p.1 == createRowKey row)) = true
    · rw [if_pos hk]
      refine List.mem_map.mpr ⟨(k, c), hm, ?_⟩
      by_cases hkk : (((k, c) : String × String).1 == createRowKey row)
          = true
      · rw [if_pos hkk]
        have hkey : createRowKey row = k := (beq_iff_eq.mp hkk).symm
        rw [hkey, hcons hc hkey]
      · rw [if_neg hkk]
    · rw [if_neg hk]
      exact List.mem_append.mpr (.inl hm)

/-- An existing (key, code) entry survives the whole loop provided any
later row writing the same key writes the same code. -/
theorem foldl_insertFlight_preserves : ∀ (rows : List (List String))
    (m : List (String × String)) (k c : String), (k, c) ∈ m →
    (∀ r ∈ rows, jsCode r ≠ "" → createRowKey r = k → jsCode r = c) →
    (k, c) ∈ rows.foldl insertFlight m := by
  intro rows
  induction rows with
  | nil => exact fun m k c hm _ => hm
  | cons r t ih =>
    intro m k c hm hr
    rw [List.foldl_cons]
    exact ih _ k c
      (insertFlight_preserves hm (hr r (List.mem_cons_self r t)))
      (fun r2 h2 => hr r2 (List.mem_cons_of_mem r h2))

/-- Under key-determines-code consistency, every row with a non-blank
column-B field has its (key, code) pair in the final map. -/
theorem code_mem_buildFlightMap {rows : List (List String)}
    {r : List String} (hr : r ∈ rows) (hc : jsCode r ≠ "")
    (hKC : ∀ r1 ∈ rows, ∀ r2 ∈ rows,
      createRowKey r1 = createRowKey r2 → jsCode r1 = jsCode r2) :
    (createRowKey r, jsCode r) ∈ buildFlightMap rows := by
  rcases List.append_of_mem hr with ⟨l1, l2, rfl⟩
  rw [buildFlightMap, List.foldl_append, List.foldl_cons]
  apply foldl_insertFlight_preserves
  · exact insertFlight_self_mem hc
  · intro r2 h2 _hc2 hk2
    exact hKC r2 (by simp [h2]) r (by simp) hk2

/-- Under key-determines-code consistency, the "any previous record
shares this code" probe over the lookup map agrees with the same
question asked of the previous rows themselves. -/
theorem any_code_buildFlightMap_iff (rows : List (List String)) (c : String)
    (hKC : ∀ r1 ∈ rows, ∀ r2 ∈ rows,
      createRowKey r1 = createRowKey r2 → jsCode r1 = jsCode r2) :
    ((buildFlightMap rows).any (fun p => p.2 == c) = true) ↔
      ∃ r ∈ rows, jsCode r ≠ "" ∧ jsCode r = c := by
  constructor
  · intro h
    rcases List.any_eq_true.mp h with ⟨p, hp, hpc⟩
    rcases mem_buildFlightMap_aux rows [] p hp with h0 | ⟨r, hr, hpr, hne⟩
    · exact absurd h0 (List.not_mem_nil p)
    · refine ⟨r, hr, hne, ?_⟩
      have : p.2 = jsCode r := by rw [hpr]
      rw [← this]
      exact beq_iff_eq.mp hpc
  · rintro ⟨r, hr, hne, hrc⟩
    refine List.any_eq_true.mpr
      ⟨(createRowKey r, jsCode r), code_mem_buildFlightMap hr hne hKC, ?_⟩
    exact beq_iff_eq.mpr hrc

/-- If no previous row shares the RowKey, the lookup-map key probe comes
back false. -/
theorem any_key_buildFlightMap_false (rows : List (List String))
    (k : String) (hkey : ¬ ∃ r ∈ rows, createRowKey r = k) :
    ((buildFlightMap rows).any (fun p => p.1 == k)) = false := by
  rw [Bool.eq_false_iff]
  intro h
  rcases List.any_eq_true.mp h with ⟨p, hp, hpk⟩
  rcases mem_buildFlightMap_aux rows [] p hp with h0 | ⟨r, hr, hpr, _⟩
  · exact absurd h0 (List.not_mem_nil p)
  · refine hkey ⟨r, hr, ?_⟩
    have : p.1 = createRowKey r := by rw [hpr]
    rw [← this]
    exact beq_iff_eq.mp hpk

/-- The old row of the C3/C4 counterexamples: registration REG1, flight
code BA123. -/
def c3oldRow : List String :=
  ["1-Jan-25", "REG1", "BA123", "AAA", "BBB", "10:00", "12:00"]

/-- The new row of the C3/C4 counterexamples: same flight code BA123 but
registration REG2 and shifted times. -/
def c3newRow : List String :=
  ["1-Jan-25", "REG2", "BA123", "AAA", "BBB", "11:00", "13:00"]

/-- Counterexample to C3: the new row's RowKey is absent from the
previous snapshot and a previous row has the same Code (column C,
"BA123"), so C3 classifies it Modified - but the differ keys on column B
(VehicleReg), sees REG2 nowhere in the old snapshot, and classifies it
New. -/
theorem c3_counterexample :
    classifyRow (buildFlightMap [c3oldRow]) c3newRow = DiffClass.newFlight ∧
    jsTrim (c3oldRow.getD 2 "") = jsTrim (c3newRow.getD 2 "") ∧
    createRowKey c3oldRow ≠ createRowKey c3newRow := by
  decide

/-- C3 amended: for a new-side row with a non-blank column-B field whose
RowKey is absent from the previous snapshot, the differ classifies it
Modified exactly when some previous row carries the same COLUMN-B value
(VehicleReg, the field `detectAndHighlightChanges` actually reads as
"code"), and New exactly when no previous row does.  The consistency
hypothesis - previous rows agreeing on RowKey agree on column B - holds
for all real 7-cell rows without "|" in their cells. -/
theorem c3_amended_classification (oldRows : List (List String))
    (row : List String)
    (hKC : ∀ r1 ∈ oldRows, ∀ r2 ∈ oldRows,
      createRowKey r1 = createRowKey r2 → jsCode r1 = jsCode r2)
    (hcode : jsCode row ≠ "")
    (hkey : ¬ ∃ r ∈ oldRows, createRowKey r = createRowKey row) :
    (classifyRow (buildFlightMap oldRows) row = DiffClass.modified ↔
      ∃ r ∈ oldRows, jsCode r ≠ "" ∧ jsCode r = jsCode row) ∧
    (classifyRow (buildFlightMap oldRows) row = DiffClass.newFlight ↔
      ¬ ∃ r ∈ oldRows, jsCode r ≠ "" ∧ jsCode r = jsCode row) := by
  rw [classifyRow, if_neg hcode]
  rw [any_key_buildFlightMap_false oldRows (createRowKey row) hkey]
  rw [if_neg (by simp)]
  by_cases hany : ((buildFlightMap oldRows).any
      (fun p => p.2 == jsCode row)) = true
  · rw [if_pos hany]
    have hex := (any_code_buildFlightMap_iff oldRows (jsCode row) hKC).mp hany
    exact ⟨⟨fun _ => hex, fun _ => rfl⟩,
      ⟨fun h => absurd h (by decide), fun h => absurd hex h⟩⟩
  · rw [if_neg hany]
    have hnex : ¬ ∃ r ∈ oldRows, jsCode r ≠ "" ∧ jsCode r = jsCode row :=
      fun h => hany ((any_code_buildFlightMap_iff oldRows (jsCode row)
        hKC).mpr h)
    exact ⟨⟨fun h => absurd h (by decide), fun h => absurd h hnex⟩,
      ⟨fun _ => hnex, fun _ => rfl⟩⟩

/-- Witness for `c3_amended_classification` at the counterexample rows:
the hypotheses hold concretely, and the row classifies as New because no
previous row carries column-B value "REG2". -/
theorem c3_amended_classification_witness :
    (∀ r1 ∈ [c3oldRow], ∀ r2 ∈ [c3oldRow],
      createRowKey r1 = createRowKey r2 → jsCode r1 = jsCode r2) ∧
    jsCode c3newRow ≠ "" ∧
    (¬ ∃ r ∈ [c3oldRow], createRowKey r = createRowKey c3newRow) ∧
    ((classifyRow (buildFlightMap [c3oldRow]) c3newRow =
        DiffClass.modified ↔
      ∃ r ∈ [c3oldRow], jsCode r ≠ "" ∧ jsCode r = jsCode c3newRow) ∧
     (classifyRow (buildFlightMap [c3oldRow]) c3newRow =
        DiffClass.newFlight ↔
      ¬ ∃ r ∈ [c3oldRow], jsCode r ≠ "" ∧ jsCode r = jsCode c3newRow)) :=
  ⟨by decide, by decide, by decide,
    c3_amended_classification [c3oldRow] c3newRow (by decide) (by decide)
      (by decide)⟩
